import Mathlib

/-!
Verification of the travel-assistant middleware pipeline.

This file gives a shallow embedding, in Lean, of the parts of the
repository that the claims C1..C10 talk about:

* `app/middleware/hallucination_guardrail.py` — the post-model grounding
  guardrail (`HallucinationGuardrailMiddleware.after_model`);
* `app/middleware/tool_selector.py` — the tool-selection gate
  (`ToolSelectorMiddleware.wrap_model_call`);
* `app/middleware/retry.py` — the retry-with-backoff wrappers
  (`retry_model`, `retry_tool`);
* `app/tools/external/weather.py` — the weather tool
  (`get_weather_forecast`, `_fetch_7day_forecast`).

Python strings are modelled as Lean `String`, operating on the code-point
list `String.data` (Python's `str` operations are code-point based).
Python floats are modelled as exact rationals `ℚ`.  External effects (the
LLM invocations, HTTP calls, `random.uniform`, `time.sleep`) are modelled
as explicit oracle inputs, and the observable effects of a call (events
emitted through `emit_event`, sleeps, appended messages) are returned as
explicit data so that theorems can speak about them.
-/

namespace Travel

/-! ### Python string primitives

Python `str.startswith`, `in`, slicing and `strip` used by the sources,
modelled over the code-point list. -/

/-- Python `s.startswith(pre)`: `pre` is a code-point prefix of `s`. -/
def pyStartsWith (s pre : String) : Bool :=
  pre.data.isPrefixOf s.data

/-- Python `c in s` for a single-character needle. -/
def pyContains (s : String) (c : Char) : Bool :=
  s.data.contains c

/-- Python `s[n:]` (slicing is by code point). -/
def pyDropChars (s : String) (n : Nat) : String :=
  String.mk (s.data.drop n)

/-- Python whitespace for `str.strip()` (the ASCII whitespace characters;
exotic Unicode spaces are not relevant to any claim). -/
def isPySpace (c : Char) : Bool :=
  (c == ' ') || (c == '\t') || (c == '\n') || (c == '\r') ||
  (c == Char.ofNat 11) || (c == Char.ofNat 12)

/-- Python `s.strip()`: remove leading and trailing whitespace. -/
def pyStrip (s : String) : String :=
  String.mk (((s.data.dropWhile isPySpace).reverse.dropWhile isPySpace).reverse)

/-- A single-quote character as a string (used when mirroring Python
f-strings that quote names). -/
def sq : String := String.mk [Char.ofNat 39]

/-- A left-brace character as a string. -/
def lbr : String := String.mk [Char.ofNat 123]

/-- A right-brace character as a string. -/
def rbr : String := String.mk [Char.ofNat 125]

/-! ### Middleware events

`emit_event` (in `app/middleware/event_collector.py`) appends a record
`{"middleware": ..., "status": ..., "message": ...}` plus, when non-empty,
a `"details"` mapping.  Detail values in the sources are strings, ints,
floats, or lists of strings. -/

/-- A value stored in an event's `details` mapping. -/
inductive EVal where
  | s (v : String)
  | n (v : Nat)
  | q (v : ℚ)
  | sl (v : List String)
  deriving DecidableEq, Repr

/-- One middleware event as recorded by `emit_event`; `details = []`
models an absent `details` key. -/
structure Event where
  middleware : String
  status : String
  message : String
  details : List (String × EVal)
  deriving DecidableEq, Repr

/-! ### Messages

Mirrors the langchain message shapes the sources dispatch on:
`AIMessage` (with a `tool_calls` list), `HumanMessage`, `ToolMessage`,
and content that is either a plain string or a list of blocks
(each a string, a `{"type": "text", ...}` dict, or some other object). -/

/-- One element of a list-shaped message content. -/
inductive Block where
  /-- a plain string block -/
  | str (s : String)
  /-- a dict block with `"type": "text"`; carries `block.get("text", "")` -/
  | text (t : String)
  /-- any other block; carries its Python `repr` rendering (opaque) -/
  | other (rendered : String)
  deriving DecidableEq, Repr

/-- A message `content` field: a string, a list of blocks, or some other
object (carrying its Python `str()` rendering, opaque). -/
inductive Content where
  | str (s : String)
  | blocks (bs : List Block)
  | objStr (rendered : String)
  deriving DecidableEq, Repr

/-- The text contributed by one block in `_extract_text`. -/
def blockText : Block → Option String
  | Block.str s => some s
  | Block.text t => some t
  | Block.other _ => none

/-- Embeds `_extract_text` from `hallucination_guardrail.py`: a string is
returned as-is; for a list, string blocks and `"text"`-typed dict blocks
are collected and joined with newlines; anything else is `str(content)`. -/
def extractText : Content → String
  | Content.str s => s
  | Content.blocks bs => String.intercalate ("\n") (bs.filterMap blockText)
  | Content.objStr r => r

/-- Python `repr` of a block, as it appears inside `str(list)`.
String-escaping inside `repr` is not modelled (no claim depends on it). -/
def blockRepr : Block → String
  | Block.str s => sq ++ s ++ sq
  | Block.text t =>
      lbr ++ sq ++ "type" ++ sq ++ ": " ++ sq ++ "text" ++ sq ++ ", " ++
        sq ++ "text" ++ sq ++ ": " ++ sq ++ t ++ sq ++ rbr
  | Block.other r => r

/-- Python `str(content)` as used by `tool_selector.py` on a non-string
`HumanMessage.content`. -/
def contentAsStr : Content → String
  | Content.str s => s
  | Content.blocks bs => "[" ++ String.intercalate (", ") (bs.map blockRepr) ++ "]"
  | Content.objStr r => r

/-- A conversation message. -/
inductive Message where
  /-- `AIMessage`, with the names of its requested tool calls -/
  | ai (content : Content) (tool_calls : List String)
  /-- `HumanMessage` -/
  | human (content : Content)
  /-- `ToolMessage`, with its originating tool name -/
  | tool (name : String) (content : Content)
  /-- `SystemMessage` -/
  | system (content : Content)
  deriving DecidableEq, Repr

/-- Whether a message is a `HumanMessage`. -/
def isHumanMessage : Message → Bool
  | Message.human _ => true
  | _ => false

/-! ### GroundingGuardrail (`hallucination_guardrail.py`)

`HallucinationGuardrailMiddleware.after_model` reads the agent state
(message list and `hallucination_retries` counter), and either returns
`None` (accept the candidate response, no state change) or a state update
`{"messages": [corrective], "hallucination_retries": n+1, "jump_to": "model"}`.
The verification-model invocation is an oracle input (`VerifyCall`): it
either raises or returns a message content.  The prompt assembled from
`_extract_tool_observations` / `_summarize_conversation` only feeds that
opaque invocation and is not modelled. -/

/-- Constant `MAX_HALLUCINATION_RETRIES` in `hallucination_guardrail.py`. -/
def MAX_HALLUCINATION_RETRIES : Nat := 1

/-- The agent state fields `after_model` reads
(`HallucinationGuardrailState`); `state.get("hallucination_retries", 0)`
defaults to 0, which the `Nat` field absorbs. -/
structure GuardState where
  messages : List Message
  hallucination_retries : Nat
  deriving DecidableEq, Repr

/-- Outcome of the verification-model invocation
(`verification_model.invoke(...)`). -/
inductive VerifyCall where
  /-- the invocation raised an exception -/
  | raised
  /-- the invocation returned a result with this `content` -/
  | returned (content : Content)
  deriving DecidableEq, Repr

/-- The dict returned by `after_model` on a FAIL verdict. -/
structure GuardUpdate where
  /-- the `"messages"` entry: messages appended to the history -/
  appended : List Message
  /-- the new `"hallucination_retries"` value -/
  hallucination_retries : Nat
  /-- the `"jump_to"` entry -/
  jump_to : String
  deriving DecidableEq, Repr

/-- Observable outcome of one `after_model` call: whether the verifier
was invoked, the events emitted through `emit_event`, and the returned
state update (`none` models Python `return None`). -/
structure GuardOutput where
  invoked : Bool
  events : List Event
  update : Option GuardUpdate
  deriving DecidableEq, Repr

/-- Result of `after_model` returning `None` without having invoked the verifier
and without emitting any event. -/
def guardNoAction : GuardOutput := ⟨false, [], none⟩

/-- The marker prefix of corrective messages; appears inline in both
sources (`hallucination_guardrail.py` builds the corrective content with
it, `tool_selector.py` tests `content.startswith("[SYSTEM:")`). -/
def SYSTEM_MARKER : String := "[SYSTEM:"

/-- Content of the corrective `HumanMessage` built on a FAIL verdict
(the f-string at `hallucination_guardrail.py:142-150`). -/
def correctiveContent (failure_reason : String) : String :=
  "[SYSTEM: Your previous response did not pass a factual grounding check. Issue: "
    ++ failure_reason ++
    ". Please regenerate your response. Follow these rules strictly: (1) Only cite weather data that was returned by the weather tool. (2) Do not invent specific prices, hours, or real-time details. (3) If a tool returned an error, acknowledge you could not retrieve that data. (4) Hedge or qualify any specific claims you are not certain about.]"

/-- The corrective message: a `HumanMessage` with the corrective content. -/
def correctiveMessage (failure_reason : String) : Message :=
  Message.human (Content.str (correctiveContent failure_reason))

/-- Embeds `verdict[len("FAIL:"):] .strip() if ":" in verdict else
"ungrounded content detected"` from `hallucination_guardrail.py:130`. -/
def failureReason (verdict : String) : String :=
  if pyContains verdict (':') then pyStrip (pyDropChars verdict 5)
  else "ungrounded content detected"

/-- The verdict prefix `"PASS"` tested at `hallucination_guardrail.py:119`. -/
def PASS_TOKEN : String := "PASS"

/-- The verdict prefix `"FAIL"` tested at `hallucination_guardrail.py:129`. -/
def FAIL_TOKEN : String := "FAIL"

/-- Event emitted when the verification invocation raises. -/
def guardErrorCallEvent : Event :=
  ⟨"hallucination_guardrail", "error",
   "Grounding check model invocation failed — accepting response as-is", []⟩

/-- Event emitted on a PASS verdict. -/
def guardPassedEvent (verdict : String) : Event :=
  ⟨"hallucination_guardrail", "passed",
   "Grounding check PASSED — response is well-grounded",
   [("verdict", EVal.s verdict)]⟩

/-- Event emitted on a FAIL verdict; `retry` is `retries_so_far + 1`. -/
def guardFailedEvent (verdict reason : String) (retry : Nat) : Event :=
  ⟨"hallucination_guardrail", "failed",
   "Grounding check FAILED — re-routing to model for correction",
   [("verdict", EVal.s verdict), ("reason", EVal.s reason), ("retry", EVal.n retry)]⟩

/-- Event emitted on a verdict matching neither `PASS` nor `FAIL`. -/
def guardBadVerdictEvent (verdict : String) : Event :=
  ⟨"hallucination_guardrail", "error",
   "Unexpected grounding check verdict format — accepting response as-is",
   [("verdict", EVal.s verdict)]⟩

/-- Embeds `HallucinationGuardrailMiddleware.after_model`.  The gates
mirror the source's early returns: last message not an `AIMessage`;
non-empty `tool_calls`; blank response text (`not response_text or not
response_text.strip()` is equivalent to the stripped text being empty);
retry budget exhausted.  Then the verdict string is
`_extract_text(result.content).strip()` and is matched on its prefix.
The unreachable `[]`-messages arm (Python `messages[-1]` would raise
`IndexError`; claims quantify over non-empty histories) falls into the
catch-all arm. -/
def after_model (state : GuardState) (verify : VerifyCall) : GuardOutput :=
  match state.messages.getLast? with
  | some (Message.ai content tool_calls) =>
    if tool_calls = [] then
      if pyStrip (extractText content) = "" then guardNoAction
      else if MAX_HALLUCINATION_RETRIES ≤ state.hallucination_retries then guardNoAction
      else
        match verify with
        | VerifyCall.raised => ⟨true, [guardErrorCallEvent], none⟩
        | VerifyCall.returned c =>
          let verdict := pyStrip (extractText c)
          if pyStartsWith verdict PASS_TOKEN then
            ⟨true, [guardPassedEvent verdict], none⟩
          else if pyStartsWith verdict FAIL_TOKEN then
            ⟨true,
             [guardFailedEvent verdict (failureReason verdict) (state.hallucination_retries + 1)],
             some ⟨[correctiveMessage (failureReason verdict)],
                   state.hallucination_retries + 1, "model"⟩⟩
          else ⟨true, [guardBadVerdictEvent verdict], none⟩
    else guardNoAction
  | _ => guardNoAction

/-! ### ToolSelector (`tool_selector.py`)

`ToolSelectorMiddleware.wrap_model_call` first scans the message history
backward for the most recent `HumanMessage`; when that message's content
starts with `"[SYSTEM:"` it skips selection, emits a `"skipped"` event
and passes the request through unfiltered.  Otherwise it delegates to the
base `LLMToolSelectorMiddleware` (library code, modelled as the oracle
`SelectorOutcome`), catching only `ValueError` and `AssertionError` — per
the source comment, the base class raises `ValueError` when the selection
model returns tool names that do not exist. -/

/-- An element of `request.tools`: either a `BaseTool` (with a name) or a
plain dict tool description (`isinstance(t, dict)` in the source). -/
inductive PyTool where
  | base (name : String)
  | dict
  deriving DecidableEq, Repr

/-- Embeds `[t.name for t in tools if not isinstance(t, dict)]`. -/
def pyToolNames (ts : List PyTool) : List String :=
  ts.filterMap fun t => match t with
    | PyTool.base n => some n
    | PyTool.dict => none

/-- The request fields `wrap_model_call` reads. -/
structure SelectorRequest where
  messages : List Message
  tools : List PyTool
  deriving DecidableEq, Repr

/-- Outcome of `super().wrap_model_call(request, _capturing_handler)`:
either the base class filtered the tools and invoked the handler with
the given tool list, or it raised. -/
inductive SelectorOutcome where
  /-- base class called the handler with these (filtered) tools -/
  | selected (tools : List PyTool)
  /-- base class raised `ValueError` (e.g. hallucinated tool names) -/
  | valueError (msg : String)
  /-- base class raised `AssertionError` -/
  | assertionError (msg : String)
  /-- base class raised an exception of any other type -/
  | otherExc (msg : String)
  deriving DecidableEq, Repr

/-- Observable outcome of one `wrap_model_call`: whether the
classification step (the base-class call) was reached, the events
emitted, the tool list handed to the downstream handler (`none` when the
handler was never called), and the exception propagated to the caller,
if any. -/
structure SelectorOutput where
  classifierInvoked : Bool
  events : List Event
  downstreamTools : Option (List PyTool)
  raised : Option String
  deriving DecidableEq, Repr

/-- The `"skipped"` event emitted for a system-injected correction. -/
def selSkippedEvent : Event :=
  ⟨"tool_selector", "skipped", "Skipped — processing hallucination guardrail retry", []⟩

/-- The `"error"` event emitted when selection fails. -/
def selErrorEvent (msg : String) : Event :=
  ⟨"tool_selector", "error", "Tool selection failed — keeping all tools available",
   [("error", EVal.s msg)]⟩

/-- The `"success"` event emitted after a completed selection. -/
def selSuccessEvent (selected : List String) : Event :=
  ⟨"tool_selector", "success", "Tool selection completed",
   [("selected_tools", EVal.sl selected)]⟩

/-- The backward scan `for msg in reversed(request.messages)` stopping at
the first `HumanMessage`, returning its content as a Python string
(`msg.content if isinstance(msg.content, str) else str(msg.content)`). -/
def lastHumanContentStr (msgs : List Message) : Option String :=
  msgs.reverse.findSome? fun m => match m with
    | Message.human c => some (contentAsStr c)
    | _ => none

/-- The part of `wrap_model_call` after the correction gate: the
`try/except (ValueError, AssertionError)` around the base-class call. -/
def selectorClassify (req : SelectorRequest) (outcome : SelectorOutcome) : SelectorOutput :=
  match outcome with
  | SelectorOutcome.selected ts =>
      ⟨true, [selSuccessEvent (pyToolNames ts)], some ts, none⟩
  | SelectorOutcome.valueError m =>
      ⟨true, [selErrorEvent m], some req.tools, none⟩
  | SelectorOutcome.assertionError m =>
      ⟨true, [selErrorEvent m], some req.tools, none⟩
  | SelectorOutcome.otherExc m =>
      ⟨true, [], none, some m⟩

/-- Embeds `ToolSelectorMiddleware.wrap_model_call` (the today-date
prompt injection only parameterizes the opaque classification step and is
not modelled). -/
def wrap_model_call (req : SelectorRequest) (outcome : SelectorOutcome) : SelectorOutput :=
  match lastHumanContentStr req.messages with
  | some content =>
    if pyStartsWith content SYSTEM_MARKER then
      ⟨false, [selSkippedEvent], some req.tools, none⟩
    else selectorClassify req outcome
  | none => selectorClassify req outcome

/-! ### RetryPolicy (`retry.py`)

`retry_model` / `retry_tool` loop over `range(MAX)` calling the wrapped
handler; the handler's per-attempt outcome is the oracle `handler :
Nat → Except String α` (the `String` is the Python error description
`f"{type(e).__name__}: {e}"`).  `random.uniform(0, delay * 0.5)` is
`delay * 0.5 * r` for `r = random.random() ∈ [0, 1)`; the per-attempt
`r` is the oracle `rand : Nat → ℚ`.  Every externally visible step is
recorded in order in an `Action` trace: handler invocations, events, and
`time.sleep` suspensions. -/

/-- Constant `MAX_MODEL_RETRIES` in `retry.py`. -/
def MAX_MODEL_RETRIES : Nat := 3

/-- Constant `MODEL_INITIAL_DELAY` in `retry.py`. -/
def MODEL_INITIAL_DELAY : ℚ := 1

/-- Constant `MODEL_BACKOFF_FACTOR` in `retry.py`. -/
def MODEL_BACKOFF_FACTOR : ℚ := 2

/-- Constant `MAX_TOOL_RETRIES` in `retry.py`. -/
def MAX_TOOL_RETRIES : Nat := 2

/-- Constant `TOOL_INITIAL_DELAY` in `retry.py` (1.5). -/
def TOOL_INITIAL_DELAY : ℚ := 3 / 2

/-- Constant `TOOL_BACKOFF_FACTOR` in `retry.py`. -/
def TOOL_BACKOFF_FACTOR : ℚ := 2

/-- One externally visible step of a retry loop. -/
inductive Action where
  /-- `handler(request)` invoked for this 0-based attempt index -/
  | call (attempt : Nat)
  /-- `emit_event(...)` -/
  | emit (e : Event)
  /-- `time.sleep(duration)` -/
  | sleep (duration : ℚ)
  deriving DecidableEq, Repr

/-- Embeds `delay = MODEL_INITIAL_DELAY * (MODEL_BACKOFF_FACTOR ** attempt)`. -/
def modelDelay (attempt : Nat) : ℚ :=
  MODEL_INITIAL_DELAY * MODEL_BACKOFF_FACTOR ^ attempt

/-- Embeds `sleep_time = delay + jitter` with
`jitter = random.uniform(0, delay * 0.5) = delay * 0.5 * rand attempt`. -/
def modelSleepTime (rand : Nat → ℚ) (attempt : Nat) : ℚ :=
  modelDelay attempt + modelDelay attempt * (1 / 2) * rand attempt

/-- Embeds `delay = TOOL_INITIAL_DELAY * (TOOL_BACKOFF_FACTOR ** attempt)`. -/
def toolDelay (attempt : Nat) : ℚ :=
  TOOL_INITIAL_DELAY * TOOL_BACKOFF_FACTOR ^ attempt

/-- Tool-policy sleep duration for an attempt, delay plus jitter. -/
def toolSleepTime (rand : Nat → ℚ) (attempt : Nat) : ℚ :=
  toolDelay attempt + toolDelay attempt * (1 / 2) * rand attempt

/-- Python `round(q, 1)` as used for the `delay_s` detail (Python's
round-half-to-even at exact ties is approximated by `round`; no claim
depends on this display field). -/
def round1 (q : ℚ) : ℚ := ((round (10 * q) : ℤ) : ℚ) / 10

/-- Event on first-attempt model success. -/
def retryModelSuccessEvent : Event :=
  ⟨"retry_model", "success", "Model call succeeded on first attempt", []⟩

/-- Event on model success after at least one retry. -/
def retryModelRecoveredEvent (attempt : Nat) : Event :=
  ⟨"retry_model", "recovered",
   "Model call succeeded after " ++ toString (attempt + 1) ++ " attempts",
   [("attempts", EVal.n (attempt + 1))]⟩

/-- Event when the model-call retry budget is exhausted. -/
def retryModelFailedEvent (err : String) : Event :=
  ⟨"retry_model", "failed",
   "Model call failed after " ++ toString MAX_MODEL_RETRIES ++ " attempts",
   [("error", EVal.s err), ("attempts", EVal.n MAX_MODEL_RETRIES)]⟩

/-- Event emitted before sleeping between model attempts. -/
def retryModelRetryingEvent (err : String) (attempt : Nat) (sleep_time : ℚ) : Event :=
  ⟨"retry_model", "retrying",
   "Model call attempt " ++ toString (attempt + 1) ++ "/" ++ toString MAX_MODEL_RETRIES
     ++ " failed — retrying in " ++ toString (round1 sleep_time) ++ "s",
   [("error", EVal.s err), ("attempt", EVal.n (attempt + 1)),
    ("delay_s", EVal.q (round1 sleep_time))]⟩

/-- Event on first-attempt tool success. -/
def retryToolSuccessEvent (tool : String) : Event :=
  ⟨"retry_tool", "success",
   "Tool " ++ sq ++ tool ++ sq ++ " succeeded on first attempt",
   [("tool", EVal.s tool)]⟩

/-- Event on tool success after at least one retry. -/
def retryToolRecoveredEvent (tool : String) (attempt : Nat) : Event :=
  ⟨"retry_tool", "recovered",
   "Tool " ++ sq ++ tool ++ sq ++ " succeeded after " ++ toString (attempt + 1) ++ " attempts",
   [("tool", EVal.s tool), ("attempts", EVal.n (attempt + 1))]⟩

/-- Event when the tool-call retry budget is exhausted. -/
def retryToolFailedEvent (tool err : String) : Event :=
  ⟨"retry_tool", "failed",
   "Tool " ++ sq ++ tool ++ sq ++ " failed after " ++ toString MAX_TOOL_RETRIES ++ " attempts",
   [("tool", EVal.s tool), ("error", EVal.s err), ("attempts", EVal.n MAX_TOOL_RETRIES)]⟩

/-- Event emitted before sleeping between tool attempts. -/
def retryToolRetryingEvent (tool err : String) (attempt : Nat) (sleep_time : ℚ) : Event :=
  ⟨"retry_tool", "retrying",
   "Tool " ++ sq ++ tool ++ sq ++ " attempt " ++ toString (attempt + 1) ++ "/"
     ++ toString MAX_TOOL_RETRIES ++ " failed — retrying in "
     ++ toString (round1 sleep_time) ++ "s",
   [("tool", EVal.s tool), ("error", EVal.s err), ("attempt", EVal.n (attempt + 1)),
    ("delay_s", EVal.q (round1 sleep_time))]⟩

/-- The `for attempt in range(MAX_MODEL_RETRIES)` loop body of
`retry_model`, by structural recursion on the remaining iteration count.
The fuel-0 arm is unreachable from `retry_model` (the source loop always
returns or re-raises at the last attempt; falling through would be
Python `return None`). -/
def retryGoModel {α : Type} (handler : Nat → Except String α) (rand : Nat → ℚ) :
    Nat → Nat → Except String α × List Action
  | _, 0 => (Except.error (""), [])
  | attempt, fuel + 1 =>
    match handler attempt with
    | Except.ok v =>
      if attempt > 0 then
        (Except.ok v, [Action.call attempt, Action.emit (retryModelRecoveredEvent attempt)])
      else
        (Except.ok v, [Action.call attempt, Action.emit retryModelSuccessEvent])
    | Except.error e =>
      if attempt = MAX_MODEL_RETRIES - 1 then
        (Except.error e, [Action.call attempt, Action.emit (retryModelFailedEvent e)])
      else
        -- source order: compute delay+jitter, emit "retrying", then sleep, then retry
        let st := modelSleepTime rand attempt
        let rest := retryGoModel handler rand (attempt + 1) fuel
        (rest.1,
         Action.call attempt :: Action.emit (retryModelRetryingEvent e attempt st) ::
           Action.sleep st :: rest.2)

/-- Embeds `retry_model` from `retry.py`. -/
def retry_model {α : Type} (handler : Nat → Except String α) (rand : Nat → ℚ) :
    Except String α × List Action :=
  retryGoModel handler rand 0 MAX_MODEL_RETRIES

/-- The `for attempt in range(MAX_TOOL_RETRIES)` loop body of
`retry_tool`; `tool` is the resolved `tool_name`. -/
def retryGoTool {α : Type} (tool : String) (handler : Nat → Except String α)
    (rand : Nat → ℚ) : Nat → Nat → Except String α × List Action
  | _, 0 => (Except.error (""), [])
  | attempt, fuel + 1 =>
    match handler attempt with
    | Except.ok v =>
      if attempt > 0 then
        (Except.ok v, [Action.call attempt, Action.emit (retryToolRecoveredEvent tool attempt)])
      else
        (Except.ok v, [Action.call attempt, Action.emit (retryToolSuccessEvent tool)])
    | Except.error e =>
      if attempt = MAX_TOOL_RETRIES - 1 then
        (Except.error e, [Action.call attempt, Action.emit (retryToolFailedEvent tool e)])
      else
        let st := toolSleepTime rand attempt
        let rest := retryGoTool tool handler rand (attempt + 1) fuel
        (rest.1,
         Action.call attempt :: Action.emit (retryToolRetryingEvent tool e attempt st) ::
           Action.sleep st :: rest.2)

/-- Embeds `retry_tool` from `retry.py`. -/
def retry_tool {α : Type} (tool : String) (handler : Nat → Except String α)
    (rand : Nat → ℚ) : Except String α × List Action :=
  retryGoTool tool handler rand 0 MAX_TOOL_RETRIES

/-- Whether an action is the emission of a `"failed"` event. -/
def isFailedEmit : Action → Bool
  | Action.emit ev => ev.status == "failed"
  | _ => false

/-- Whether an action is the emission of a `"retrying"` event. -/
def isRetryingEmit : Action → Bool
  | Action.emit ev => ev.status == "retrying"
  | _ => false

/-- Whether an action is a `time.sleep` suspension. -/
def isSleepAction : Action → Bool
  | Action.sleep _ => true
  | _ => false

/-! ### Weather tool (`weather.py`)

`get_weather_forecast` geocodes the city, fetches a MET Norway forecast,
aggregates it into up-to-7 daily min/max entries, and serializes a
`WeatherForecastResult`; every exception from the two HTTP helpers is
caught and mapped to an `ok=false` result.  The helpers' network
behaviour is an oracle (`HttpOutcome`).  A timeseries item's UTC date key
(computed in the source from the ISO `item["time"]` via
`datetime.fromisoformat(...).astimezone(utc).date().isoformat()`) is
carried directly on the item; `item["data"]["instant"]["details"]
.get("air_temperature")` filtered by `isinstance(temp, (int, float))` is
`Option ℚ`.  Python `sorted` on the ISO date-string keys is modelled by
`List.insertionSort (· ≤ ·)` (any ascending sort of the distinct keys is
extensionally `sorted`). -/

/-- One day of the aggregated forecast (the `ForecastDay` pydantic model). -/
structure ForecastDay where
  date_utc : String
  tmin_c : ℚ
  tmax_c : ℚ
  deriving DecidableEq, Repr

/-- The `WeatherForecastResult` pydantic model. -/
structure WeatherForecastResult where
  ok : Bool
  query : String
  place : Option String
  lat : Option ℚ
  lon : Option ℚ
  timezone : String
  days : List ForecastDay
  error : Option String
  deriving DecidableEq, Repr

/-- One timeseries item, reduced to the fields the aggregation reads. -/
structure ForecastItem where
  /-- the item's UTC date key `YYYY-MM-DD` -/
  day_utc : String
  /-- the numeric `air_temperature`, when present -/
  air_temperature : Option ℚ
  deriving DecidableEq, Repr

/-- Outcome of an HTTP helper call: a value, or one of the exception
classes distinguished by `get_weather_forecast`'s `except` clauses. -/
inductive HttpOutcome (α : Type) where
  | ok (a : α)
  /-- `httpx.TimeoutException` -/
  | timeout
  /-- `ValueError` (e.g. geocoding found no results) -/
  | valueError (msg : String)
  /-- any other `Exception` -/
  | otherError (msg : String)
  deriving DecidableEq, Repr

/-- Whether an outcome is a normal return. -/
def isOkOutcome {α : Type} : HttpOutcome α → Bool
  | HttpOutcome.ok _ => true
  | _ => false

/-- One `daily` update step: `daily[day] = [temp, temp]` for a new key,
else `daily[day][0] = min(...)`, `daily[day][1] = max(...)`
(`weather.py:103-107`).  The dict is an insertion-ordered association
list with unique keys. -/
def dailyUpdate : List (String × ℚ × ℚ) → String → ℚ → List (String × ℚ × ℚ)
  | [], day, t => [(day, t, t)]
  | (k, lo, hi) :: rest, day, t =>
    if k = day then (k, min lo t, max hi t) :: rest
    else (k, lo, hi) :: dailyUpdate rest day t

/-- The aggregation loop `for item in timeseries` of
`_fetch_7day_forecast`, skipping items without a numeric temperature. -/
def buildDaily (timeseries : List ForecastItem) : List (String × ℚ × ℚ) :=
  timeseries.foldl
    (fun daily item =>
      match item.air_temperature with
      | some t => dailyUpdate daily item.day_utc t
      | none => daily)
    []

/-- Dict access `daily[d]`. -/
def dailyLookup : List (String × ℚ × ℚ) → String → Option (ℚ × ℚ)
  | [], _ => none
  | (k, lo, hi) :: rest, day =>
    if k = day then some (lo, hi) else dailyLookup rest day

/-- The comprehension body `ForecastDay(date_utc=d, tmin_c=daily[d][0],
tmax_c=daily[d][1])`.  The `none` arm is unreachable (every `d` ranges
over `daily`'s keys; Python would raise `KeyError`). -/
def forecastEntry (daily : List (String × ℚ × ℚ)) (d : String) : ForecastDay :=
  match dailyLookup daily d with
  | some (lo, hi) => ⟨d, lo, hi⟩
  | none => ⟨d, 0, 0⟩

/-- Embeds the aggregation part of `_fetch_7day_forecast`:
`days = sorted(daily.keys())[:7]` then one `ForecastDay` per key. -/
def fetch_7day_forecast (timeseries : List ForecastItem) : List ForecastDay :=
  let daily := buildDaily timeseries
  let days := (List.insertionSort (· ≤ ·) (daily.map Prod.fst)).take 7
  days.map (forecastEntry daily)

/-- Invariant of the `daily` aggregation dict: every stored pair is
`[running min, running max]`, so the first component never exceeds the
second. -/
def dailyInv (l : List (String × ℚ × ℚ)) : Prop :=
  ∀ e ∈ l, e.2.1 ≤ e.2.2

/-- A failure `WeatherForecastResult` (`ok=False`, defaults elsewhere). -/
def weatherFailure (city msg : String) : WeatherForecastResult :=
  ⟨false, city, none, none, none, "UTC", [], some msg⟩

/-- Embeds `get_weather_forecast`: the `try` covers both helper calls,
and the three `except` clauses map each exception class to an `ok=false`
result; the duplicated failure arms mirror that either call can raise. -/
def get_weather_forecast (city : String) (geo : HttpOutcome (String × ℚ × ℚ))
    (forecast : HttpOutcome (List ForecastItem)) : WeatherForecastResult :=
  match geo with
  | HttpOutcome.ok (place, lat, lon) =>
    match forecast with
    | HttpOutcome.ok timeseries =>
        ⟨true, city, some place, some lat, some lon, "UTC",
         fetch_7day_forecast timeseries, none⟩
    | HttpOutcome.timeout =>
        weatherFailure city ("Timeout while fetching forecast for " ++ sq ++ city ++ sq ++ ".")
    | HttpOutcome.valueError m => weatherFailure city m
    | HttpOutcome.otherError m => weatherFailure city ("Unexpected error: " ++ m)
  | HttpOutcome.timeout =>
      weatherFailure city ("Timeout while fetching forecast for " ++ sq ++ city ++ sq ++ ".")
  | HttpOutcome.valueError m => weatherFailure city m
  | HttpOutcome.otherError m => weatherFailure city ("Unexpected error: " ++ m)

/-! ### The grounding-check gate condition

The condition under which, per the specification, the guardrail must run
the verifier: the most recent message is an assistant message with no
tool invocations and non-empty text (text that is not entirely
whitespace), and the thread's retry counter is strictly below the
configured maximum. -/

/-- Spec-side gate condition for the grounding check. -/
def guardShouldVerify (state : GuardState) : Bool :=
  match state.messages.getLast? with
  | some (Message.ai content tool_calls) =>
      decide (tool_calls = []) &&
      !(decide (pyStrip (extractText content) = "")) &&
      decide (state.hallucination_retries < MAX_HALLUCINATION_RETRIES)
  | _ => false

/-- Whether the correction gate of `wrap_model_call` triggers: the most
recent user message exists and starts with the system-correction marker. -/
def selectorMarkerGate (msgs : List Message) : Bool :=
  match lastHumanContentStr msgs with
  | some c => pyStartsWith c SYSTEM_MARKER
  | none => false

/-- A verdict starting with `"FAIL"` does not start with `"PASS"`. -/
theorem not_pass_of_fail {v : String} (h : pyStartsWith v FAIL_TOKEN = true) :
    pyStartsWith v PASS_TOKEN = false := by
  have hF : FAIL_TOKEN.data = ['F', 'A', 'I', 'L'] := rfl
  have hP : PASS_TOKEN.data = ['P', 'A', 'S', 'S'] := rfl
  simp only [pyStartsWith, List.isPrefixOf_iff_prefix] at h
  simp only [pyStartsWith, Bool.eq_false_iff, ne_eq, List.isPrefixOf_iff_prefix]
  intro hp
  obtain ⟨t, ht⟩ := h
  obtain ⟨u, hu⟩ := hp
  rw [hF] at ht
  rw [hP] at hu
  have := ht.trans hu.symm
  simp at this

/-- The `invoked` flag of `after_model` computes exactly the gate
condition `guardShouldVerify`. -/
theorem after_model_invoked_eq (state : GuardState) (verify : VerifyCall) :
    (after_model state verify).invoked = guardShouldVerify state := by
  unfold after_model guardShouldVerify
  rcases hm : state.messages.getLast? with _ | m
  · simp [guardNoAction]
  · rcases m with ⟨content, tcs⟩ | c | ⟨n, c⟩ | c
    case ai =>
      by_cases h1 : tcs = []
      case neg => simp [h1, guardNoAction]
      case pos =>
        by_cases h2 : pyStrip (extractText content) = ""
        case pos => simp [h1, h2, guardNoAction]
        case neg =>
          by_cases h3 : MAX_HALLUCINATION_RETRIES ≤ state.hallucination_retries
          case pos => simp [h1, h2, h3, Nat.not_lt.mpr h3, guardNoAction]
          case neg =>
            have h3' := Nat.not_le.mp h3
            rcases verify with _ | c2
            · simp [h1, h2, h3, h3']
            · simp [h1, h2, h3, h3']
              split_ifs <;> rfl
    all_goals simp [guardNoAction]

/-- When the gate condition fails, `after_model` returns `None` having
emitted nothing and invoked nothing. -/
theorem after_model_gate_closed (state : GuardState) (verify : VerifyCall)
    (h : guardShouldVerify state = false) :
    after_model state verify = guardNoAction := by
  unfold guardShouldVerify at h
  unfold after_model
  rcases hm : state.messages.getLast? with _ | m
  · simp
  · rw [hm] at h
    rcases m with ⟨content, tcs⟩ | c | ⟨n, c⟩ | c
    case ai =>
      by_cases h1 : tcs = []
      case neg => simp [h1]
      case pos =>
        by_cases h2 : pyStrip (extractText content) = ""
        case pos => simp [h1, h2]
        case neg =>
          by_cases h3 : MAX_HALLUCINATION_RETRIES ≤ state.hallucination_retries
          case pos => simp [h1, h2, h3]
          case neg =>
            exfalso
            have h3' := Nat.not_le.mp h3
            simp [h1, h2, h3'] at h
    all_goals simp

/-- C1: for every agent state with a non-empty history, `after_model`
invokes the grounding verifier iff the most recent message is an
assistant message with no tool calls and non-(whitespace-)empty text and
the retry counter is strictly below `MAX_HALLUCINATION_RETRIES` (= 1);
in every other case it returns `None` without calling the verifier,
emitting nothing and leaving the state unchanged. -/
theorem C1_grounding_gate (state : GuardState) (verify : VerifyCall)
    (hne : state.messages ≠ []) :
    ((after_model state verify).invoked = true ↔ guardShouldVerify state = true) ∧
    (guardShouldVerify state = false → after_model state verify = guardNoAction) :=
  ⟨by rw [after_model_invoked_eq], after_model_gate_closed state verify⟩

/-- C1 witness: a concrete final assistant message, retry counter 0. -/
theorem C1_grounding_gate_witness :
    (([Message.ai (Content.str ("Sunny in Paris.")) []] : List Message) ≠ []) ∧
    (((after_model ⟨[Message.ai (Content.str ("Sunny in Paris.")) []], 0⟩
         VerifyCall.raised).invoked = true ↔
       guardShouldVerify ⟨[Message.ai (Content.str ("Sunny in Paris.")) []], 0⟩ = true) ∧
     (guardShouldVerify ⟨[Message.ai (Content.str ("Sunny in Paris.")) []], 0⟩ = false →
       after_model ⟨[Message.ai (Content.str ("Sunny in Paris.")) []], 0⟩
         VerifyCall.raised = guardNoAction)) :=
  ⟨by decide, C1_grounding_gate _ _ (by decide)⟩

/-- C2: whenever the gate passes and the verifier's stripped verdict
starts with `"FAIL"`, `after_model` emits exactly one `"failed"` event
carrying the verdict, the parsed reason and the attempt number, appends
exactly one corrective message, increments the retry counter by exactly
1, and re-routes to the model step (`jump_to = "model"`). -/
theorem C2_fail_verdict (state : GuardState) (c : Content)
    (hgate : guardShouldVerify state = true)
    (hfail : pyStartsWith (pyStrip (extractText c)) FAIL_TOKEN = true) :
    after_model state (VerifyCall.returned c) =
      ⟨true,
       [guardFailedEvent (pyStrip (extractText c))
          (failureReason (pyStrip (extractText c))) (state.hallucination_retries + 1)],
       some ⟨[correctiveMessage (failureReason (pyStrip (extractText c)))],
             state.hallucination_retries + 1, "model"⟩⟩ := by
  have hpass := not_pass_of_fail hfail
  unfold guardShouldVerify at hgate
  unfold after_model
  rcases hm : state.messages.getLast? with _ | m
  · rw [hm] at hgate; simp at hgate
  · rw [hm] at hgate
    rcases m with ⟨content, tcs⟩ | c0 | ⟨n, c0⟩ | c0
    case ai =>
      simp only [Bool.and_eq_true, decide_eq_true_eq, Bool.not_eq_true',
        decide_eq_false_iff_not] at hgate
      obtain ⟨⟨h1, h2⟩, h3⟩ := hgate
      have h4 : ¬MAX_HALLUCINATION_RETRIES ≤ state.hallucination_retries :=
        Nat.not_le.mpr h3
      simp [h1, h2, h4, hfail, hpass]
    all_goals simp at hgate

/-- C2 witness: a concrete FAIL verdict on a concrete final response. -/
theorem C2_fail_verdict_witness :
    (guardShouldVerify ⟨[Message.human (Content.str ("hi")),
        Message.ai (Content.str ("It is 25C in Rome.")) []], 0⟩ = true) ∧
    (pyStartsWith (pyStrip (extractText (Content.str ("FAIL: invented temperature"))))
        FAIL_TOKEN = true) ∧
    after_model ⟨[Message.human (Content.str ("hi")),
        Message.ai (Content.str ("It is 25C in Rome.")) []], 0⟩
        (VerifyCall.returned (Content.str ("FAIL: invented temperature"))) =
      ⟨true,
       [guardFailedEvent ("FAIL: invented temperature") ("invented temperature") 1],
       some ⟨[correctiveMessage ("invented temperature")], 1, "model"⟩⟩ :=
  ⟨by decide, by decide, C2_fail_verdict _ _ (by decide) (by decide)⟩

/-- C3: whenever the gate passes, a raising verification call — and
likewise a verdict matching neither the `PASS` nor the `FAIL` prefix —
makes `after_model` emit exactly one `"error"` event and return `None`:
the candidate response is accepted as-is, nothing is appended, the
retry counter is unchanged, and no failure propagates (the embedding
returns normally in both cases). -/
theorem C3_verification_error (state : GuardState) (c : Content)
    (hgate : guardShouldVerify state = true)
    (hpass : pyStartsWith (pyStrip (extractText c)) PASS_TOKEN = false)
    (hfail : pyStartsWith (pyStrip (extractText c)) FAIL_TOKEN = false) :
    after_model state VerifyCall.raised = ⟨true, [guardErrorCallEvent], none⟩ ∧
    after_model state (VerifyCall.returned c) =
      ⟨true, [guardBadVerdictEvent (pyStrip (extractText c))], none⟩ := by
  unfold guardShouldVerify at hgate
  unfold after_model
  rcases hm : state.messages.getLast? with _ | m
  · rw [hm] at hgate; simp at hgate
  · rw [hm] at hgate
    rcases m with ⟨content, tcs⟩ | c0 | ⟨n, c0⟩ | c0
    case ai =>
      simp only [Bool.and_eq_true, decide_eq_true_eq, Bool.not_eq_true',
        decide_eq_false_iff_not] at hgate
      obtain ⟨⟨h1, h2⟩, h3⟩ := hgate
      have h4 : ¬MAX_HALLUCINATION_RETRIES ≤ state.hallucination_retries :=
        Nat.not_le.mpr h3
      constructor <;> simp [h1, h2, h4, hpass, hfail]
    all_goals simp at hgate

/-! ### ToolSelector theorems -/

set_option maxRecDepth 4096 in
/-- The corrective content starts with the system-correction marker, for
every failure reason. -/
theorem correctiveContent_starts_with_marker (reason : String) :
    pyStartsWith (correctiveContent reason) SYSTEM_MARKER = true := by
  have h1 : SYSTEM_MARKER.data <+:
      ("[SYSTEM: Your previous response did not pass a factual grounding check. Issue: ").data := by
    decide
  simp only [pyStartsWith, List.isPrefixOf_iff_prefix, correctiveContent, String.data_append]
  exact h1.trans ((List.prefix_append _ _).trans (List.prefix_append _ _))

/-- When the most recent user message starts with the marker,
`wrap_model_call` skips classification and passes through unfiltered. -/
theorem wrap_skip_of_marker (req : SelectorRequest) (outcome : SelectorOutcome) (c : String)
    (h1 : lastHumanContentStr req.messages = some c)
    (h2 : pyStartsWith c SYSTEM_MARKER = true) :
    wrap_model_call req outcome = ⟨false, [selSkippedEvent], some req.tools, none⟩ := by
  unfold wrap_model_call
  rw [h1]
  simp [h2]

/-- C6: for every message history whose most recent user-authored message
starts with the reserved correction marker, `wrap_model_call` returns the
full unfiltered tool set to the downstream call, emits exactly one
`"skipped"` event, and never reaches the classification step — for every
possible classifier behaviour. -/
theorem C6_marker_bypasses_selection (req : SelectorRequest) (outcome : SelectorOutcome)
    (c : String) (h1 : lastHumanContentStr req.messages = some c)
    (h2 : pyStartsWith c SYSTEM_MARKER = true) :
    wrap_model_call req outcome = ⟨false, [selSkippedEvent], some req.tools, none⟩ :=
  wrap_skip_of_marker req outcome c h1 h2

/-- C6 witness: a concrete corrective history with a throwing classifier. -/
theorem C6_marker_bypasses_selection_witness :
    (lastHumanContentStr [Message.human (Content.str ("[SYSTEM: fix it"))] =
        some ("[SYSTEM: fix it")) ∧
    (pyStartsWith ("[SYSTEM: fix it") SYSTEM_MARKER = true) ∧
    wrap_model_call ⟨[Message.human (Content.str ("[SYSTEM: fix it"))],
        [PyTool.base ("get_weather_forecast")]⟩ (SelectorOutcome.otherExc ("boom")) =
      ⟨false, [selSkippedEvent], some [PyTool.base ("get_weather_forecast")], none⟩ :=
  ⟨by decide, by decide,
   C6_marker_bypasses_selection
     ⟨[Message.human (Content.str ("[SYSTEM: fix it"))], [PyTool.base ("get_weather_forecast")]⟩
     (SelectorOutcome.otherExc ("boom")) ("[SYSTEM: fix it") (by decide) (by decide)⟩

/-- C7 counterexample: the claim says ToolSelector catches *every*
throwing classification step and never raises, but the source catches
only `ValueError` and `AssertionError`; a classifier raising any other
exception type (here a `RuntimeError`) propagates to the caller — no
`"error"` event is emitted and the downstream handler is never called
with the unfiltered tool set. -/
theorem C7_catch_all_counterexample :
    wrap_model_call ⟨[Message.human (Content.str ("plan a trip"))],
        [PyTool.base ("get_weather_forecast")]⟩
        (SelectorOutcome.otherExc ("RuntimeError: boom")) =
      ⟨true, [], none, some ("RuntimeError: boom")⟩ := by
  decide

/-- C7 (amended): for every classification step that raises `ValueError`
or `AssertionError` — which per the base selector's contract includes the
case of tool names outside the declared set — `wrap_model_call` catches
the failure, emits exactly one `"error"` event with the failure
description, and forwards the downstream call with the complete,
unfiltered tool set, raising nothing; exceptions of other types
propagate. -/
theorem C7_validation_fallback (req : SelectorRequest) (m : String)
    (hgate : selectorMarkerGate req.messages = false) :
    wrap_model_call req (SelectorOutcome.valueError m) =
      ⟨true, [selErrorEvent m], some req.tools, none⟩ ∧
    wrap_model_call req (SelectorOutcome.assertionError m) =
      ⟨true, [selErrorEvent m], some req.tools, none⟩ := by
  unfold selectorMarkerGate at hgate
  unfold wrap_model_call
  rcases hl : lastHumanContentStr req.messages with _ | c
  · exact ⟨rfl, rfl⟩
  · rw [hl] at hgate
    simp at hgate
    simp [hgate, selectorClassify]

/-- C7 witness: a concrete genuine user turn and a `ValueError` from the
classification step. -/
theorem C7_validation_fallback_witness :
    (selectorMarkerGate [Message.human (Content.str ("plan a trip"))] = false) ∧
    (wrap_model_call ⟨[Message.human (Content.str ("plan a trip"))],
         [PyTool.base ("get_weather_forecast")]⟩
         (SelectorOutcome.valueError ("Unknown tools: nonexistent_tool")) =
       ⟨true, [selErrorEvent ("Unknown tools: nonexistent_tool")],
        some [PyTool.base ("get_weather_forecast")], none⟩ ∧
     wrap_model_call ⟨[Message.human (Content.str ("plan a trip"))],
         [PyTool.base ("get_weather_forecast")]⟩
         (SelectorOutcome.assertionError ("Unknown tools: nonexistent_tool")) =
       ⟨true, [selErrorEvent ("Unknown tools: nonexistent_tool")],
        some [PyTool.base ("get_weather_forecast")], none⟩) :=
  ⟨by decide, C7_validation_fallback _ _ (by decide)⟩

/-- C8: every corrective message constructed by the guardrail is a
user-authored (`HumanMessage`) message whose content begins with exactly
the marker prefix the selector's backward scan tests for; consequently,
on the forced regeneration turn — where the corrective message is the
most recent user message — `wrap_model_call` detects the tag and
bypasses narrowing, passing the full tool set through. -/
theorem C8_marker_roundtrip (reason : String) (req : SelectorRequest)
    (outcome : SelectorOutcome)
    (hlast : lastHumanContentStr req.messages = some (correctiveContent reason)) :
    isHumanMessage (correctiveMessage reason) = true ∧
    pyStartsWith (correctiveContent reason) SYSTEM_MARKER = true ∧
    wrap_model_call req outcome = ⟨false, [selSkippedEvent], some req.tools, none⟩ :=
  ⟨rfl, correctiveContent_starts_with_marker reason,
   wrap_skip_of_marker req outcome _ hlast (correctiveContent_starts_with_marker reason)⟩

/-- C8 witness: the concrete history produced by a FAIL verdict with
reason `"made up data"`. -/
theorem C8_marker_roundtrip_witness :
    (lastHumanContentStr [correctiveMessage ("made up data")] =
        some (correctiveContent ("made up data"))) ∧
    (isHumanMessage (correctiveMessage ("made up data")) = true ∧
     pyStartsWith (correctiveContent ("made up data")) SYSTEM_MARKER = true ∧
     wrap_model_call ⟨[correctiveMessage ("made up data")], [PyTool.base ("get_weather_forecast")]⟩
         (SelectorOutcome.selected []) =
       ⟨false, [selSkippedEvent], some [PyTool.base ("get_weather_forecast")], none⟩) :=
  ⟨rfl, C8_marker_roundtrip _ _ _ rfl⟩

/-! ### RetryPolicy theorems -/

/-- C4: for every wrapped invocation that fails on all `maxAttempts`
consecutive attempts (3 for the model policy, 2 for the tool policy),
the retry wrapper emits exactly one `"failed"` event, whose details
carry the final error description and `attempts == maxAttempts`, and
re-raises the final failure (the loop's result is that error, not a
swallowed success). -/
theorem C4_exhaustion_failed_event (α β : Type)
    (h : Nat → Except String α) (ht : Nat → Except String β)
    (rand randt : Nat → ℚ) (tool e0 e1 e2 f0 f1 : String)
    (h0 : h 0 = Except.error e0) (h1 : h 1 = Except.error e1)
    (h2 : h 2 = Except.error e2)
    (g0 : ht 0 = Except.error f0) (g1 : ht 1 = Except.error f1) :
    ((retry_model h rand).1 = Except.error e2 ∧
     (retry_model h rand).2.filter isFailedEmit =
       [Action.emit (retryModelFailedEvent e2)]) ∧
    ((retry_tool tool ht randt).1 = Except.error f1 ∧
     (retry_tool tool ht randt).2.filter isFailedEmit =
       [Action.emit (retryToolFailedEvent tool f1)]) := by
  constructor
  · simp [retry_model, retryGoModel, MAX_MODEL_RETRIES, h0, h1, h2, isFailedEmit,
      retryModelRetryingEvent, retryModelFailedEvent, List.filter]
  · simp [retry_tool, retryGoTool, MAX_TOOL_RETRIES, g0, g1, isFailedEmit,
      retryToolRetryingEvent, retryToolFailedEvent, List.filter]

/-- C4 witness: handlers that fail every attempt. -/
theorem C4_exhaustion_failed_event_witness :
    ((fun _ : Nat => (Except.error ("TimeoutError: slow") : Except String Nat)) 0 =
        Except.error ("TimeoutError: slow")) ∧
    (((retry_model (fun _ => (Except.error ("TimeoutError: slow") : Except String Nat))
          (fun _ => 0)).1 = Except.error ("TimeoutError: slow") ∧
      (retry_model (fun _ => (Except.error ("TimeoutError: slow") : Except String Nat))
          (fun _ => 0)).2.filter isFailedEmit =
        [Action.emit (retryModelFailedEvent ("TimeoutError: slow"))]) ∧
     ((retry_tool ("get_weather_forecast")
          (fun _ => (Except.error ("TimeoutError: slow") : Except String Nat))
          (fun _ => 0)).1 = Except.error ("TimeoutError: slow") ∧
      (retry_tool ("get_weather_forecast")
          (fun _ => (Except.error ("TimeoutError: slow") : Except String Nat))
          (fun _ => 0)).2.filter isFailedEmit =
        [Action.emit (retryToolFailedEvent ("get_weather_forecast") ("TimeoutError: slow"))])) :=
  ⟨rfl, C4_exhaustion_failed_event Nat Nat _ _ _ _ ("get_weather_forecast")
    _ _ _ _ _ rfl rfl rfl rfl rfl⟩

/-- C5: for every retried attempt with 0-based index `i`, the suspension
duration used by the retry wrappers (`delay + uniform(0, 0.5*delay)`,
which is the argument of every `Action.sleep` produced by `retryGoModel`
/ `retryGoTool`) lies in `[initial * factor^i, 1.5 * initial * factor^i)`,
for the model policy (`initial = 1.0, factor = 2.0`) and the tool policy
(`initial = 1.5, factor = 2.0`); `rand i ∈ [0, 1)` models
`random.random()`. -/
theorem C5_backoff_bounds (rand : Nat → ℚ) (i : Nat)
    (h0 : 0 ≤ rand i) (h1 : rand i < 1) :
    (MODEL_INITIAL_DELAY * MODEL_BACKOFF_FACTOR ^ i ≤ modelSleepTime rand i ∧
     modelSleepTime rand i < 3 / 2 * (MODEL_INITIAL_DELAY * MODEL_BACKOFF_FACTOR ^ i)) ∧
    (TOOL_INITIAL_DELAY * TOOL_BACKOFF_FACTOR ^ i ≤ toolSleepTime rand i ∧
     toolSleepTime rand i < 3 / 2 * (TOOL_INITIAL_DELAY * TOOL_BACKOFF_FACTOR ^ i)) := by
  have hm : (0 : ℚ) < MODEL_INITIAL_DELAY * MODEL_BACKOFF_FACTOR ^ i := by
    unfold MODEL_INITIAL_DELAY MODEL_BACKOFF_FACTOR
    positivity
  have ht : (0 : ℚ) < TOOL_INITIAL_DELAY * TOOL_BACKOFF_FACTOR ^ i := by
    unfold TOOL_INITIAL_DELAY TOOL_BACKOFF_FACTOR
    positivity
  unfold modelSleepTime toolSleepTime modelDelay toolDelay
  refine ⟨⟨?_, ?_⟩, ⟨?_, ?_⟩⟩
  · nlinarith [mul_nonneg hm.le h0]
  · nlinarith [mul_pos hm (sub_pos.mpr h1)]
  · nlinarith [mul_nonneg ht.le h0]
  · nlinarith [mul_pos ht (sub_pos.mpr h1)]

/-- C5 witness: jitter fraction `1/3` at attempt index 0. -/
theorem C5_backoff_bounds_witness :
    ((0 : ℚ) ≤ 1 / 3 ∧ (1 / 3 : ℚ) < 1) ∧
    ((MODEL_INITIAL_DELAY * MODEL_BACKOFF_FACTOR ^ 0 ≤
        modelSleepTime (fun _ => 1 / 3) 0 ∧
      modelSleepTime (fun _ => 1 / 3) 0 <
        3 / 2 * (MODEL_INITIAL_DELAY * MODEL_BACKOFF_FACTOR ^ 0)) ∧
     (TOOL_INITIAL_DELAY * TOOL_BACKOFF_FACTOR ^ 0 ≤
        toolSleepTime (fun _ => 1 / 3) 0 ∧
      toolSleepTime (fun _ => 1 / 3) 0 <
        3 / 2 * (TOOL_INITIAL_DELAY * TOOL_BACKOFF_FACTOR ^ 0))) :=
  ⟨⟨by norm_num, by norm_num⟩,
   C5_backoff_bounds (fun _ => 1 / 3) 0 (by norm_num) (by norm_num)⟩

/-- C9 counterexample: the claim orders a retried attempt's steps as
compute, *suspend*, then *emit* the `"retrying"` event; in the source
(`retry.py:59-65`) `emit_event` runs before `time.sleep`.  In this
concrete run (first attempt fails, second succeeds, zero jitter) the
trace is `call 0, emit retrying, sleep, call 1, emit recovered`: the
unique `"retrying"` emission strictly precedes the unique suspension,
refuting the claimed order. -/
theorem C9_sleep_then_emit_counterexample :
    ((retry_model (fun i => if i = 0 then Except.error ("ConnectError: boom") else Except.ok 42)
        (fun _ => 0)).2.findIdx isRetryingEmit <
     (retry_model (fun i => if i = 0 then Except.error ("ConnectError: boom") else Except.ok 42)
        (fun _ => 0)).2.findIdx isSleepAction) ∧
    ¬((retry_model (fun i => if i = 0 then Except.error ("ConnectError: boom") else Except.ok 42)
        (fun _ => 0)).2.findIdx isSleepAction <
      (retry_model (fun i => if i = 0 then Except.error ("ConnectError: boom") else Except.ok 42)
        (fun _ => 0)).2.findIdx isRetryingEmit) := by
  refine ⟨by decide, by decide⟩

/-- C9 (amended): for every failed attempt with retries remaining, the
retry wrappers perform, in order: compute the delay plus jitter, emit
the `"retrying"` event with the attempt index and computed delay, *then*
suspend for that duration, and then retry the invocation. -/
theorem C9_retry_step_order :
    (∀ (α : Type) (h : Nat → Except String α) (rand : Nat → ℚ) (attempt fuel : Nat)
       (e : String), h attempt = Except.error e → attempt ≠ MAX_MODEL_RETRIES - 1 →
       retryGoModel h rand attempt (fuel + 1) =
         ((retryGoModel h rand (attempt + 1) fuel).1,
          Action.call attempt ::
            Action.emit (retryModelRetryingEvent e attempt (modelSleepTime rand attempt)) ::
            Action.sleep (modelSleepTime rand attempt) ::
            (retryGoModel h rand (attempt + 1) fuel).2)) ∧
    (∀ (α : Type) (tool : String) (h : Nat → Except String α) (rand : Nat → ℚ)
       (attempt fuel : Nat) (e : String),
       h attempt = Except.error e → attempt ≠ MAX_TOOL_RETRIES - 1 →
       retryGoTool tool h rand attempt (fuel + 1) =
         ((retryGoTool tool h rand (attempt + 1) fuel).1,
          Action.call attempt ::
            Action.emit (retryToolRetryingEvent tool e attempt (toolSleepTime rand attempt)) ::
            Action.sleep (toolSleepTime rand attempt) ::
            (retryGoTool tool h rand (attempt + 1) fuel).2)) := by
  constructor
  · intro α h rand attempt fuel e hfail hlast
    simp [retryGoModel, hfail, hlast]
  · intro α tool h rand attempt fuel e hfail hlast
    simp [retryGoTool, hfail, hlast]

/-- C9 amended-claim witness: a handler that always fails, attempt 0. -/
theorem C9_retry_step_order_witness :
    ((fun _ : Nat => (Except.error ("E: x") : Except String Nat)) 0 =
        Except.error ("E: x")) ∧
    ((0 : Nat) ≠ MAX_MODEL_RETRIES - 1) ∧
    retryGoModel (fun _ => (Except.error ("E: x") : Except String Nat)) (fun _ => 0) 0 (1 + 1) =
      ((retryGoModel (fun _ => (Except.error ("E: x") : Except String Nat)) (fun _ => 0) 1 1).1,
       Action.call 0 ::
         Action.emit (retryModelRetryingEvent ("E: x") 0 (modelSleepTime (fun _ => 0) 0)) ::
         Action.sleep (modelSleepTime (fun _ => 0) 0) ::
         (retryGoModel (fun _ => (Except.error ("E: x") : Except String Nat)) (fun _ => 0) 1 1).2) :=
  ⟨rfl, by decide,
   C9_retry_step_order.1 Nat (fun _ => Except.error ("E: x")) (fun _ => 0) 0 1 ("E: x")
     rfl (by decide)⟩

/-! ### Weather-tool theorems -/

/-- Keys after a `dailyUpdate` are the old keys, possibly with the
updated day appended. -/
theorem mem_keys_dailyUpdate (d : String) (t : ℚ) :
    ∀ (l : List (String × ℚ × ℚ)) (x : String),
      x ∈ (dailyUpdate l d t).map Prod.fst → x ∈ l.map Prod.fst ∨ x = d := by
  intro l
  induction l with
  | nil =>
    intro x hx
    simp only [dailyUpdate, List.map_cons, List.map_nil, List.mem_singleton] at hx
    exact Or.inr hx
  | cons p rest ih =>
    obtain ⟨k, lo, hi⟩ := p
    intro x hx
    by_cases hk : k = d
    · simp only [dailyUpdate, if_pos hk, List.map_cons, List.mem_cons] at hx ⊢
      exact Or.inl hx
    · simp only [dailyUpdate, if_neg hk, List.map_cons, List.mem_cons] at hx ⊢
      rcases hx with h | h
      · exact Or.inl (Or.inl h)
      · rcases ih x h with h' | h'
        · exact Or.inl (Or.inr h')
        · exact Or.inr h'

/-- Lemma: `dailyUpdate` keeps the dict's keys distinct. -/
theorem nodup_keys_dailyUpdate (d : String) (t : ℚ) :
    ∀ l : List (String × ℚ × ℚ), (l.map Prod.fst).Nodup →
      ((dailyUpdate l d t).map Prod.fst).Nodup := by
  intro l
  induction l with
  | nil =>
    intro _
    simp [dailyUpdate]
  | cons p rest ih =>
    obtain ⟨k, lo, hi⟩ := p
    intro hnd
    by_cases hk : k = d
    · simpa only [dailyUpdate, if_pos hk, List.map_cons] using hnd
    · simp only [List.map_cons, List.nodup_cons] at hnd
      simp only [dailyUpdate, if_neg hk, List.map_cons, List.nodup_cons]
      refine ⟨fun hmem => ?_, ih hnd.2⟩
      rcases mem_keys_dailyUpdate d t rest k hmem with h | h
      · exact hnd.1 h
      · exact hk h

/-- The aggregation loop keeps the dict's keys distinct. -/
theorem nodup_keys_buildDaily_aux :
    ∀ (ts : List ForecastItem) (acc : List (String × ℚ × ℚ)),
      (acc.map Prod.fst).Nodup →
      ((ts.foldl (fun daily item =>
          match item.air_temperature with
          | some t => dailyUpdate daily item.day_utc t
          | none => daily) acc).map Prod.fst).Nodup := by
  intro ts
  induction ts with
  | nil =>
    intro acc h
    simpa using h
  | cons item rest ih =>
    intro acc h
    simp only [List.foldl_cons]
    cases htemp : item.air_temperature with
    | none =>
      simp only [htemp]
      exact ih acc h
    | some t =>
      simp only [htemp]
      exact ih _ (nodup_keys_dailyUpdate _ _ _ h)

/-- The keys of the aggregated dict are distinct. -/
theorem nodup_keys_buildDaily (ts : List ForecastItem) :
    ((buildDaily ts).map Prod.fst).Nodup :=
  nodup_keys_buildDaily_aux ts [] (by simp)

/-- Lemma: `dailyUpdate` preserves the min/max invariant. -/
theorem dailyUpdate_inv (d : String) (t : ℚ) :
    ∀ l : List (String × ℚ × ℚ), dailyInv l → dailyInv (dailyUpdate l d t) := by
  intro l
  induction l with
  | nil =>
    intro _ e he
    simp only [dailyUpdate, List.mem_singleton] at he
    simp [he]
  | cons p rest ih =>
    obtain ⟨k, lo, hi⟩ := p
    intro hinv e he
    have htail : dailyInv rest := fun e' he' => hinv e' (List.mem_cons_of_mem _ he')
    by_cases hk : k = d
    · simp only [dailyUpdate, if_pos hk, List.mem_cons] at he
      rcases he with he | he
      · subst he
        exact le_trans (min_le_right lo t) (le_max_right hi t)
      · exact htail e he
    · simp only [dailyUpdate, if_neg hk, List.mem_cons] at he
      rcases he with he | he
      · subst he
        exact hinv (k, lo, hi) (List.mem_cons_self _ _)
      · exact ih htail e he

/-- The aggregated dict satisfies the min/max invariant. -/
theorem buildDaily_inv_aux :
    ∀ (ts : List ForecastItem) (acc : List (String × ℚ × ℚ)),
      dailyInv acc →
      dailyInv (ts.foldl (fun daily item =>
        match item.air_temperature with
        | some t => dailyUpdate daily item.day_utc t
        | none => daily) acc) := by
  intro ts
  induction ts with
  | nil =>
    intro acc h
    simpa using h
  | cons item rest ih =>
    intro acc h
    simp only [List.foldl_cons]
    cases htemp : item.air_temperature with
    | none =>
      simp only [htemp]
      exact ih acc h
    | some t =>
      simp only [htemp]
      exact ih _ (dailyUpdate_inv _ _ _ h)

/-- The min/max invariant for `buildDaily`. -/
theorem buildDaily_inv (ts : List ForecastItem) : dailyInv (buildDaily ts) :=
  buildDaily_inv_aux ts [] (by intro e he; simp at he)

/-- A successful `dailyLookup` returns a pair satisfying the invariant. -/
theorem dailyLookup_inv :
    ∀ (l : List (String × ℚ × ℚ)) (d : String) (lo hi : ℚ),
      dailyInv l → dailyLookup l d = some (lo, hi) → lo ≤ hi := by
  intro l
  induction l with
  | nil =>
    intro d lo hi _ h
    simp [dailyLookup] at h
  | cons p rest ih =>
    obtain ⟨k, lo', hi'⟩ := p
    intro d lo hi hinv h
    have htail : dailyInv rest := fun e' he' => hinv e' (List.mem_cons_of_mem _ he')
    by_cases hk : k = d
    · simp only [dailyLookup, if_pos hk, Option.some.injEq, Prod.mk.injEq] at h
      have := hinv (k, lo', hi') (List.mem_cons_self _ _)
      simpa [h.1, h.2] using this
    · simp only [dailyLookup, if_neg hk] at h
      exact ih d lo hi htail h

/-- The comprehension body preserves the day key. -/
theorem forecastEntry_date (daily : List (String × ℚ × ℚ)) (d : String) :
    (forecastEntry daily d).date_utc = d := by
  unfold forecastEntry
  cases h : dailyLookup daily d with
  | none => rfl
  | some p =>
    obtain ⟨lo, hi⟩ := p
    rfl

/-- Every produced entry has `tmin_c ≤ tmax_c`. -/
theorem forecastEntry_min_le_max (daily : List (String × ℚ × ℚ)) (d : String)
    (hinv : dailyInv daily) :
    (forecastEntry daily d).tmin_c ≤ (forecastEntry daily d).tmax_c := by
  unfold forecastEntry
  cases h : dailyLookup daily d with
  | none => exact le_refl 0
  | some p =>
    obtain ⟨lo, hi⟩ := p
    exact dailyLookup_inv daily d lo hi hinv h

/-- The forecast days list is strictly ascending in its date keys. -/
theorem fetch_7day_forecast_sorted (ts : List ForecastItem) :
    List.Pairwise (fun a b : ForecastDay => a.date_utc < b.date_utc)
      (fetch_7day_forecast ts) := by
  unfold fetch_7day_forecast
  have h1 : List.Sorted (· ≤ ·)
      (List.insertionSort (· ≤ ·) ((buildDaily ts).map Prod.fst)) :=
    List.sorted_insertionSort _ _
  have h2 : (List.insertionSort (· ≤ ·) ((buildDaily ts).map Prod.fst)).Nodup :=
    (List.perm_insertionSort _ _).nodup_iff.mpr (nodup_keys_buildDaily ts)
  have h3 : List.Sorted (· < ·)
      (List.insertionSort (· ≤ ·) ((buildDaily ts).map Prod.fst)) :=
    h1.lt_of_le h2
  have h4 : List.Pairwise (fun a b : String => a < b)
      ((List.insertionSort (· ≤ ·) ((buildDaily ts).map Prod.fst)).take 7) :=
    List.Pairwise.sublist (List.take_sublist 7 _) h3
  rw [List.pairwise_map]
  exact h4.imp fun hab => by
    rw [forecastEntry_date, forecastEntry_date]
    exact hab

/-- C10: `get_weather_forecast` is total over every geocoding / forecast
outcome (every exception class is caught — the embedding has an arm for
each `except` clause, so no failure escapes): on any internal failure the
result has `ok = false` and a non-null `error`; on success it has
`ok = true` and its `days` list holds at most 7 entries, in strictly
ascending date order, each with `tmin_c ≤ tmax_c`. -/
theorem C10_weather_robustness (city : String) (geo : HttpOutcome (String × ℚ × ℚ))
    (forecast : HttpOutcome (List ForecastItem)) :
    ((isOkOutcome geo = false ∨ isOkOutcome forecast = false) →
       (get_weather_forecast city geo forecast).ok = false ∧
       (get_weather_forecast city geo forecast).error ≠ none) ∧
    (∀ (place : String) (lat lon : ℚ) (ts : List ForecastItem),
       geo = HttpOutcome.ok (place, lat, lon) → forecast = HttpOutcome.ok ts →
       (get_weather_forecast city geo forecast).ok = true ∧
       (get_weather_forecast city geo forecast).days.length ≤ 7 ∧
       List.Pairwise (fun a b : ForecastDay => a.date_utc < b.date_utc)
         (get_weather_forecast city geo forecast).days ∧
       ∀ d ∈ (get_weather_forecast city geo forecast).days, d.tmin_c ≤ d.tmax_c) := by
  constructor
  · intro h
    rcases geo with ⟨p, la, lo⟩ | _ | m | m
    · rcases forecast with ts | _ | m | m
      · simp [isOkOutcome] at h
      all_goals simp [get_weather_forecast, weatherFailure]
    all_goals simp [get_weather_forecast, weatherFailure]
  · intro place lat lon ts hg hf
    subst hg
    subst hf
    refine ⟨rfl, ?_, ?_, ?_⟩
    · simp only [get_weather_forecast, fetch_7day_forecast, List.length_map,
        List.length_take]
      exact min_le_left _ _
    · exact fetch_7day_forecast_sorted ts
    · intro d hd
      have hd' : d ∈ fetch_7day_forecast ts := hd
      unfold fetch_7day_forecast at hd'
      obtain ⟨key, hkey, rfl⟩ := List.mem_map.mp hd'
      exact forecastEntry_min_le_max _ _ (buildDaily_inv ts)

/-- C10 witness: a timed-out geocode, and a successful run whose
timeseries arrives out of date order with a missing temperature. -/
theorem C10_weather_robustness_witness :
    (((get_weather_forecast ("Paris") (HttpOutcome.timeout)
          (HttpOutcome.ok [])).ok = false ∧
      (get_weather_forecast ("Paris") (HttpOutcome.timeout)
          (HttpOutcome.ok [])).error ≠ none)) ∧
    ((get_weather_forecast ("Paris") (HttpOutcome.ok (("Paris, France"), 48, 2))
         (HttpOutcome.ok [⟨"2026-10-13", some 12⟩, ⟨"2026-10-12", some 15⟩,
           ⟨"2026-10-12", some 9⟩, ⟨"2026-10-13", none⟩])).ok = true ∧
     (get_weather_forecast ("Paris") (HttpOutcome.ok (("Paris, France"), 48, 2))
         (HttpOutcome.ok [⟨"2026-10-13", some 12⟩, ⟨"2026-10-12", some 15⟩,
           ⟨"2026-10-12", some 9⟩, ⟨"2026-10-13", none⟩])).days.length ≤ 7 ∧
     List.Pairwise (fun a b : ForecastDay => a.date_utc < b.date_utc)
       (get_weather_forecast ("Paris") (HttpOutcome.ok (("Paris, France"), 48, 2))
         (HttpOutcome.ok [⟨"2026-10-13", some 12⟩, ⟨"2026-10-12", some 15⟩,
           ⟨"2026-10-12", some 9⟩, ⟨"2026-10-13", none⟩])).days ∧
     ∀ d ∈ (get_weather_forecast ("Paris") (HttpOutcome.ok (("Paris, France"), 48, 2))
         (HttpOutcome.ok [⟨"2026-10-13", some 12⟩, ⟨"2026-10-12", some 15⟩,
           ⟨"2026-10-12", some 9⟩, ⟨"2026-10-13", none⟩])).days,
       d.tmin_c ≤ d.tmax_c) :=
  ⟨(C10_weather_robustness ("Paris") (HttpOutcome.timeout) (HttpOutcome.ok [])).1
     (Or.inl rfl),
   (C10_weather_robustness ("Paris") (HttpOutcome.ok (("Paris, France"), 48, 2))
       (HttpOutcome.ok [⟨"2026-10-13", some 12⟩, ⟨"2026-10-12", some 15⟩,
         ⟨"2026-10-12", some 9⟩, ⟨"2026-10-13", none⟩])).2
     ("Paris, France") 48 2 _ rfl rfl⟩

/-- C3 witness: a raising call and a malformed verdict (`"MAYBE"`). -/
theorem C3_verification_error_witness :
    (guardShouldVerify ⟨[Message.ai (Content.str ("Rome is lovely.")) []], 0⟩ = true) ∧
    (pyStartsWith (pyStrip (extractText (Content.str ("MAYBE")))) PASS_TOKEN = false) ∧
    (pyStartsWith (pyStrip (extractText (Content.str ("MAYBE")))) FAIL_TOKEN = false) ∧
    (after_model ⟨[Message.ai (Content.str ("Rome is lovely.")) []], 0⟩
        VerifyCall.raised = ⟨true, [guardErrorCallEvent], none⟩ ∧
     after_model ⟨[Message.ai (Content.str ("Rome is lovely.")) []], 0⟩
        (VerifyCall.returned (Content.str ("MAYBE"))) =
       ⟨true, [guardBadVerdictEvent ("MAYBE")], none⟩) :=
  ⟨by decide, by decide, by decide,
   C3_verification_error _ _ (by decide) (by decide) (by decide)⟩

end Travel
